import Mathlib

/-!
Shallow embedding of `src/weather.py`: a small ETL batch that provisions a
four-table schema, resolves city and date dimension rows, fetches a forecast,
aggregates temperatures, upserts a current-weather snapshot and appends a
historical record, isolating failures per city.

The MySQL store is modelled as an explicit `DBState`; the connection as a pair
of a committed and a working state (`con.commit()` publishes the working state).
External collaborators (geocoding HTTP call, forecast HTTP call, wall clock) and
store-level failures are supplied per city through a `CityEnv` environment:
each field records the outcome the outside world produces for the corresponding
call site in the Python source.
-/

namespace Weather

/-- A row of `dim_city` (lines 26-31 of the source): surrogate id, unique name,
coordinates. -/
structure CityRow where
  city_id : Nat
  name : String
  lat : Int
  lon : Int
  deriving Repr, DecidableEq

/-- A row of `dim_date` (lines 34-45): surrogate id, unique calendar date and
the attributes derived from it at creation time. -/
structure DateRow where
  date_id : Nat
  full_date : String
  year : Int
  month : Int
  day : Int
  quarter : Int
  day_name : String
  week_of_year : Int
  deriving Repr, DecidableEq

/-- The measurement fields shared by the snapshot and the history tables. -/
structure Reading where
  temp_now : Int
  temp_min : Int
  temp_max : Int
  humidity : Int
  wind_speed : Int
  condition_text : String
  deriving Repr, DecidableEq

/-- A row of `current_weather` (lines 46-58): primary key `city_id`, the
measurements and the `last_updated` timestamp. -/
structure SnapRow where
  city_id : Nat
  reading : Reading
  last_updated : Nat
  deriving Repr, DecidableEq

/-- A row of `historical_weather` (lines 60-75): surrogate id, foreign keys,
time of day, measurements. -/
structure HistRow where
  history_id : Nat
  city_id : Nat
  date_id : Nat
  time_measured : String
  reading : Reading
  deriving Repr, DecidableEq

/-- The relational store: existence flags for the four tables and their rows,
plus the AUTO_INCREMENT counters. -/
structure DBState where
  hasDimCity : Bool
  hasDimDate : Bool
  hasCurrent : Bool
  hasHistorical : Bool
  dimCity : List CityRow
  dimDate : List DateRow
  currentWeather : List SnapRow
  historicalWeather : List HistRow
  nextCityId : Nat
  nextDateId : Nat
  nextHistId : Nat
  deriving Repr, DecidableEq

/-- A connection: `working` is the state seen by statements on this connection,
`committed` is what has been made durable by `con.commit()` so far. -/
structure Conn where
  committed : DBState
  working : DBState
  deriving Repr, DecidableEq

/-- One forecast entry of the provider response `data["list"]`
(`dt_txt`, `main.temp`, `main.humidity`, `wind.speed`,
`weather[0].description`). -/
structure Entry where
  dt_txt : String
  temp : Int
  humidity : Int
  wind_speed : Int
  description : String
  deriving Repr, DecidableEq

/-- One line of the final report: `results.append` on line 177 (success with
`temp_now`) or line 180 (failure with the exception text). -/
inductive ReportEntry where
  | success (city : String) (temp_now : Int)
  | failure (city : String) (err : String)
  deriving Repr, DecidableEq

/-- The city a report entry refers to. -/
def ReportEntry.city : ReportEntry → String
  | .success c _ => c
  | .failure c _ => c

/-- Whether a report entry records a success. -/
def ReportEntry.isSuccess : ReportEntry → Bool
  | .success _ _ => true
  | .failure _ _ => false

/-! ## Temperature aggregation (lines 143-156) -/

/-- Python `s.startswith(p)`: `p` is a prefix of the character sequence of
`s`.  (Stated on the underlying character lists so that it evaluates in the
kernel.) -/
def strStartsWith (s p : String) : Bool :=
  p.data.isPrefixOf s.data

/-- Line 144: the temperatures of the forecast entries whose `dt_txt` starts
with the collection day string. -/
def todayTemps (entries : List Entry) (todayStr : String) : List Int :=
  (entries.filter (fun e => strStartsWith e.dt_txt todayStr)).map Entry.temp

/-- Python `min` over a nonempty list `a :: l`. -/
def listMin (a : Int) (l : List Int) : Int :=
  l.foldl min a

/-- Python `max` over a nonempty list `a :: l`. -/
def listMax (a : Int) (l : List Int) : Int :=
  l.foldl max a

/-- Lines 143-156: aggregate the forecast into the reading that will be
written.  Temperatures come from the entries dated today (falling back to the
first entry when none matches); humidity, wind speed and condition come from
the first entry of the unfiltered sequence.  `none` models the `IndexError`
raised by `data["list"][0]` when the forecast sequence is empty. -/
def buildReading (entries : List Entry) (todayStr : String) : Option Reading :=
  match entries with
  | [] => none
  | first :: _ =>
    match todayTemps entries todayStr with
    | [] =>
        some { temp_now := first.temp, temp_min := first.temp,
               temp_max := first.temp, humidity := first.humidity,
               wind_speed := first.wind_speed, condition_text := first.description }
    | t :: ts =>
        some { temp_now := t, temp_min := listMin t ts, temp_max := listMax t ts,
               humidity := first.humidity, wind_speed := first.wind_speed,
               condition_text := first.description }

/-! ## Store statements -/

/-- Line 92: `INSERT IGNORE INTO dim_city (name, lat, lon)`.  The UNIQUE
constraint on `name` makes the insert a no-op when a row with this name
already exists; otherwise a fresh surrogate id is assigned. -/
def insertIgnoreCity (s : DBState) (name : String) (lat lon : Int) : DBState :=
  if s.dimCity.any (fun r => r.name = name) then s
  else { s with dimCity := s.dimCity ++ [⟨s.nextCityId, name, lat, lon⟩],
                nextCityId := s.nextCityId + 1 }

/-- Line 94: `SELECT city_id FROM dim_city WHERE name=%s` followed by
`fetchone()[0]`. -/
def selectCityId (s : DBState) (name : String) : Option Nat :=
  (s.dimCity.find? (fun r => r.name = name)).map CityRow.city_id

/-- Line 102: `SELECT date_id FROM dim_date WHERE full_date=%s`. -/
def selectDateId (s : DBState) (fullDate : String) : Option Nat :=
  (s.dimDate.find? (fun r => r.full_date = fullDate)).map DateRow.date_id

/-- Row-level effect of lines 159-167: `INSERT INTO current_weather ... ON
DUPLICATE KEY UPDATE ...`.  If a row with this `city_id` exists its
measurement fields are overwritten and `last_updated` is set to `NOW()`;
otherwise a fresh row is inserted (with `last_updated` defaulted to the
current timestamp). -/
def snapUpsertRows (rows : List SnapRow) (cid : Nat) (r : Reading) (now : Nat) :
    List SnapRow :=
  if rows.any (fun row => row.city_id = cid) then
    rows.map (fun row => if row.city_id = cid then ⟨row.city_id, r, now⟩ else row)
  else
    rows ++ [⟨cid, r, now⟩]

/-- Lines 159-167 as a state transformer. -/
def upsertSnapshot (s : DBState) (cid : Nat) (r : Reading) (now : Nat) : DBState :=
  { s with currentWeather := snapUpsertRows s.currentWeather cid r now }

/-- Lines 170-174: `INSERT INTO historical_weather ...`; always inserts a new
row under a fresh surrogate id. -/
def insertHistory (s : DBState) (cid did : Nat) (t : String) (r : Reading) : DBState :=
  { s with
    historicalWeather := s.historicalWeather ++ [⟨s.nextHistId, cid, did, t, r⟩],
    nextHistId := s.nextHistId + 1 }

/-- `con.commit()`: publish the working state. -/
def Conn.commit (con : Conn) : Conn :=
  { committed := con.working, working := con.working }

/-! ## Dimension resolution (lines 90-121) -/

/-- Lines 90-95: `get_or_create_city`.  `dbErr = some e` injects a store
failure (`mysql.connector.Error`) at this call site, in which case the
statement has no effect and the exception propagates.  Otherwise: INSERT
IGNORE, `con.commit()`, then SELECT the id by name (the `fetchone()[0]`
subscript would raise if no row came back, modelled by the error branch). -/
def get_or_create_city (con : Conn) (city : String) (lat lon : Int)
    (dbErr : Option String) : Conn × Except String Nat :=
  match dbErr with
  | some e => (con, .error e)
  | none =>
    let con' := (Conn.commit { con with working := insertIgnoreCity con.working city lat lon })
    (con',
     match selectCityId con'.working city with
     | some cid => .ok cid
     | none => .error "TypeError")

/-- The date attributes Python derives from a `datetime` value: the calendar
date (ISO string, as produced by `date().isoformat()`), its components, the
weekday name, the ISO week number, and the formatted time of day.  These are
inputs from the wall clock, not computed by the program under study. -/
structure DateObj where
  fullDate : String
  year : Int
  month : Int
  day : Int
  dayName : String
  weekOfYear : Int
  timeStr : String
  deriving Repr, DecidableEq

/-- Lines 97-121: `get_or_create_date`.  Look the calendar date up; if found
return the existing id (no write, no commit), otherwise insert a row with the
derived attributes (quarter computed as `(month - 1) // 3 + 1` on line 111),
commit, and return `lastrowid`. -/
def get_or_create_date (con : Conn) (d : DateObj) (dbErr : Option String) :
    Conn × Except String Nat :=
  match dbErr with
  | some e => (con, .error e)
  | none =>
    match selectDateId con.working d.fullDate with
    | some did => (con, .ok did)
    | none =>
      let did := con.working.nextDateId
      let row : DateRow :=
        ⟨did, d.fullDate, d.year, d.month, d.day, (d.month - 1) / 3 + 1,
         d.dayName, d.weekOfYear⟩
      let w := { con.working with dimDate := con.working.dimDate ++ [row],
                                  nextDateId := did + 1 }
      (Conn.commit { con with working := w }, .ok did)

/-! ## The per-city pipeline (lines 129-180) -/

/-- Everything the outside world contributes to one iteration of the city
loop: the geocoding response (line 132), the wall clock (lines 135-137), the
forecast response (lines 138-141), the `NOW()` value used by the snapshot
upsert, and injected store failures for each of the four statement sites. -/
structure CityEnv where
  geocode : Except String (Int × Int)
  cityDbErr : Option String
  now : DateObj
  dateDbErr : Option String
  fetch : Except String (List Entry)
  snapErr : Option String
  histErr : Option String
  commitErr : Option String
  clock : Nat
  deriving Repr

/-- Lines 130-180: the body of the per-city `try`.  Each step either advances
the pipeline or raises; a raise is caught at the city boundary (line 179) and
turned into a failure entry, leaving whatever uncommitted work the earlier
statements put on the shared connection in place (no rollback is issued). -/
def processCity (env : CityEnv) (city : String) (con : Conn) : Conn × ReportEntry :=
  match env.geocode with
  | .error e => (con, .failure city e)
  | .ok (lat, lon) =>
    let p1 := get_or_create_city con city lat lon env.cityDbErr
    match p1.2 with
    | .error e => (p1.1, .failure city e)
    | .ok city_id =>
      let p2 := get_or_create_date p1.1 env.now env.dateDbErr
      match p2.2 with
      | .error e => (p2.1, .failure city e)
      | .ok date_id =>
        match env.fetch with
        | .error e => (p2.1, .failure city e)
        | .ok entries =>
          match buildReading entries env.now.fullDate with
          | none => (p2.1, .failure city "IndexError")
          | some reading =>
            match env.snapErr with
            | some e => (p2.1, .failure city e)
            | none =>
              let con3 :=
                { p2.1 with
                  working := upsertSnapshot p2.1.working city_id reading env.clock }
              match env.histErr with
              | some e => (con3, .failure city e)
              | none =>
                let con4 :=
                  { con3 with
                    working := insertHistory con3.working city_id date_id
                                 env.now.timeStr reading }
                match env.commitErr with
                | some e => (con4, .failure city e)
                | none => (con4.commit, .success city reading.temp_now)

/-- Lines 129-180: the loop over the city tuple, threading the single shared
connection and accumulating the report.  `envf i` is the environment of the
i-th iteration. -/
def collect_loop (envf : Nat → CityEnv) (i : Nat) (cities : List String)
    (con : Conn) : Conn × List ReportEntry :=
  match cities with
  | [] => (con, [])
  | c :: cs =>
    let p := processCity (envf i) c con
    let rest := collect_loop envf (i + 1) cs p.1
    (rest.1, p.2 :: rest.2)

/-- Lines 123-188: `collect_weather`.  If opening the batch connection raises
(`connectErr`), the outer handler prints and returns early: no city is
processed and no report is produced (`none`).  Otherwise every city is
processed and the report is printed. -/
def collect_weather (connectErr : Option String) (envf : Nat → CityEnv)
    (cities : List String) (init : DBState) : Option (Conn × List ReportEntry) :=
  match connectErr with
  | some _ => none
  | none => some (collect_loop envf 0 cities ⟨init, init⟩)

/-! ## Schema provisioning (lines 21-79) and the entry point (lines 190-193) -/

/-- Store failures injected into `create_schema`: a connection failure, or a
failure of one of the four CREATE TABLE statements (in source order).  A
statement that is reached and does not fail creates its table if absent
(`CREATE TABLE IF NOT EXISTS` never fails merely because the table exists);
DDL takes effect durably statement by statement. -/
structure SchemaEnv where
  connectErr : Option String
  err1 : Option String
  err2 : Option String
  err3 : Option String
  err4 : Option String
  deriving Repr, DecidableEq

/-- Lines 21-79: `create_schema`.  Returns the resulting store state and the
caught error, if any: the `except mysql.connector.Error` handler on line 78
prints the error and returns normally, so the function never propagates a
store failure to its caller. -/
def create_schema (env : SchemaEnv) (s : DBState) : DBState × Option String :=
  match env.connectErr with
  | some e => (s, some e)
  | none =>
    match env.err1 with
    | some e => (s, some e)
    | none =>
      let s1 := { s with hasDimCity := true }
      match env.err2 with
      | some e => (s1, some e)
      | none =>
        let s2 := { s1 with hasDimDate := true }
        match env.err3 with
        | some e => (s2, some e)
        | none =>
          let s3 := { s2 with hasCurrent := true }
          match env.err4 with
          | some e => (s3, some e)
          | none => ({ s3 with hasHistorical := true }, none)

/-- A `SchemaEnv` with no store failure. -/
def schemaOk : SchemaEnv := ⟨none, none, none, none, none⟩

/-- Lines 190-193: the `__main__` block.  `create_schema()` is called first
and `collect_weather()` is then called unconditionally (`create_schema`
catches its own errors).  Returns the schema error that was printed (if any)
and the report produced by `collect_weather` (`none` when its own connection
attempt failed). -/
def mainRun (senv : SchemaEnv) (connectErr : Option String) (envf : Nat → CityEnv)
    (cities : List String) (s0 : DBState) :
    Option String × Option (List ReportEntry) :=
  let p := create_schema senv s0
  match collect_weather connectErr envf cities p.1 with
  | none => (p.2, none)
  | some q => (p.2, some q.2)

/-! ## Observation helpers and concrete test data -/

/-- The snapshot rows stored for a given city id. -/
def snapRowsFor (s : DBState) (cid : Nat) : List SnapRow :=
  s.currentWeather.filter (fun row => row.city_id = cid)

/-- The city dimension rows stored for a given name. -/
def cityRowsFor (s : DBState) (name : String) : List CityRow :=
  s.dimCity.filter (fun r => r.name = name)

/-- An empty store: no tables, no rows, AUTO_INCREMENT counters at 1. -/
def emptyDB : DBState :=
  ⟨false, false, false, false, [], [], [], [], 1, 1, 1⟩

/-- The forecast from the spec's aggregation example: entries dated today
(`d1`) with temperatures 20, 22, 19, interleaved with other-day entries. -/
def exForecast : List Entry :=
  [⟨"d1 00:00:00", 20, 71, 5, "clear sky"⟩,
   ⟨"d2 03:00:00", 5, 80, 7, "rain"⟩,
   ⟨"d1 06:00:00", 22, 60, 4, "few clouds"⟩,
   ⟨"d2 09:00:00", 30, 50, 3, "scattered clouds"⟩,
   ⟨"d1 12:00:00", 19, 65, 6, "mist"⟩]

/-- A forecast with no entry dated today (`d1`). -/
def exForecastLater : List Entry :=
  [⟨"d2 00:00:00", 7, 55, 2, "overcast"⟩, ⟨"d3 03:00:00", 11, 45, 1, "clear sky"⟩]

/-- A concrete collection day. -/
def exDate : DateObj :=
  ⟨"d1", 2024, 5, 1, "Wednesday", 18, "10:30:00"⟩

/-- A fully successful city environment. -/
def exEnvOk : CityEnv :=
  ⟨.ok (33, -7), none, exDate, none, .ok exForecast, none, none, none, 42⟩

/-- A city environment whose geocoding call raises. -/
def exEnvGeoFail : CityEnv :=
  ⟨.error "No coordinates for X", none, exDate, none, .ok exForecast,
   none, none, none, 42⟩

/-- A city environment in which everything succeeds up to and including the
snapshot upsert, and the historical insert then raises. -/
def exEnvHistFail : CityEnv :=
  ⟨.ok (33, -7), none, exDate, none, .ok exForecast, none,
   some "Lost connection", none, 42⟩

/-- A schema environment in which the connection succeeds and the first
CREATE TABLE statement fails (insufficient privilege). -/
def senvBad : SchemaEnv :=
  ⟨none, some "CREATE command denied", none, none, none⟩

/-- A concrete reading (first run). -/
def exReading1 : Reading := ⟨20, 19, 22, 71, 5, "clear sky"⟩

/-- A concrete reading (second run). -/
def exReading2 : Reading := ⟨14, 12, 16, 90, 9, "light rain"⟩

/-! ## Lemmas about Python `min` and `max` -/

theorem listMin_facts (l : List Int) :
    ∀ a : Int, (listMin a l = a ∨ listMin a l ∈ l) ∧ listMin a l ≤ a ∧
      ∀ x ∈ l, listMin a l ≤ x := by
  induction l with
  | nil =>
    intro a
    refine ⟨Or.inl rfl, le_refl _, ?_⟩
    intro x hx
    cases hx
  | cons b t ih =>
    intro a
    have h : listMin a (b :: t) = listMin (min a b) t := rfl
    obtain ⟨hmem, hle, hall⟩ := ih (min a b)
    refine ⟨?_, ?_, ?_⟩
    · rw [h]
      rcases hmem with h1 | h1
      · rcases min_choice a b with h2 | h2
        · exact Or.inl (h1.trans h2)
        · exact Or.inr (by rw [h1, h2]; exact List.mem_cons_self b t)
      · exact Or.inr (List.mem_cons_of_mem _ h1)
    · rw [h]
      exact hle.trans (min_le_left a b)
    · intro x hx
      rw [h]
      rcases List.mem_cons.mp hx with rfl | h1
      · exact hle.trans (min_le_right a x)
      · exact hall x h1

theorem listMax_facts (l : List Int) :
    ∀ a : Int, (listMax a l = a ∨ listMax a l ∈ l) ∧ a ≤ listMax a l ∧
      ∀ x ∈ l, x ≤ listMax a l := by
  induction l with
  | nil =>
    intro a
    refine ⟨Or.inl rfl, le_refl _, ?_⟩
    intro x hx
    cases hx
  | cons b t ih =>
    intro a
    have h : listMax a (b :: t) = listMax (max a b) t := rfl
    obtain ⟨hmem, hle, hall⟩ := ih (max a b)
    refine ⟨?_, ?_, ?_⟩
    · rw [h]
      rcases hmem with h1 | h1
      · rcases max_choice a b with h2 | h2
        · exact Or.inl (h1.trans h2)
        · exact Or.inr (by rw [h1, h2]; exact List.mem_cons_self b t)
      · exact Or.inr (List.mem_cons_of_mem _ h1)
    · rw [h]
      exact (le_max_left a b).trans hle
    · intro x hx
      rw [h]
      rcases List.mem_cons.mp hx with rfl | h1
      · exact (le_max_right a x).trans hle
      · exact hall x h1

/-! ## C3 and C4: temperature aggregation -/

/-- C3: for every nonempty forecast sequence, the entries dated on the
collection day are selected; `temp_now` is the first selected temperature and
`temp_min`/`temp_max` are the minimum/maximum over the selected ones; when no
entry matches the collection day all three fall back to the first entry of the
whole sequence.  On the spec's concrete example ([20, 22, 19] dated today,
interleaved with other-day entries) this yields `temp_now = 20`,
`temp_min = 19`, `temp_max = 22`; on a sequence with no today entry all three
equal the first temperature. -/
theorem temp_aggregation_correct :
    (∀ (entries : List Entry) (todayStr : String) (h : entries ≠ []),
      ∃ r, buildReading entries todayStr = some r ∧
        (todayTemps entries todayStr = [] →
          r.temp_now = (entries.head h).temp ∧
          r.temp_min = (entries.head h).temp ∧
          r.temp_max = (entries.head h).temp) ∧
        (∀ t ts, todayTemps entries todayStr = t :: ts →
          r.temp_now = t ∧
          (r.temp_min ∈ t :: ts ∧ ∀ x ∈ t :: ts, r.temp_min ≤ x) ∧
          (r.temp_max ∈ t :: ts ∧ ∀ x ∈ t :: ts, x ≤ r.temp_max))) ∧
    buildReading exForecast "d1" = some ⟨20, 19, 22, 71, 5, "clear sky"⟩ ∧
    buildReading exForecastLater "d1" = some ⟨7, 7, 7, 55, 2, "overcast"⟩ := by
  refine ⟨?_, by decide, by decide⟩
  intro entries todayStr h
  match entries with
  | first :: rest =>
    rcases hT : todayTemps (first :: rest) todayStr with _ | ⟨t, ts⟩
    · refine ⟨⟨first.temp, first.temp, first.temp, first.humidity,
        first.wind_speed, first.description⟩, ?_, ?_, ?_⟩
      · simp only [buildReading, hT]
      · intro _
        exact ⟨rfl, rfl, rfl⟩
      · intro t ts heq
        cases heq
    · refine ⟨⟨t, listMin t ts, listMax t ts, first.humidity,
        first.wind_speed, first.description⟩, ?_, ?_, ?_⟩
      · simp only [buildReading, hT]
      · intro heq
        cases heq
      · intro t' ts' heq
        obtain ⟨rfl, rfl⟩ : t = t' ∧ ts = ts' := by
          injection heq with h1 h2
          exact ⟨h1, h2⟩
        obtain ⟨hmem, hle, hall⟩ := listMin_facts ts t
        obtain ⟨hmem', hle', hall'⟩ := listMax_facts ts t
        refine ⟨rfl, ⟨?_, ?_⟩, ⟨?_, ?_⟩⟩
        · rcases hmem with h1 | h1
          · rw [h1]; exact List.mem_cons_self t ts
          · exact List.mem_cons_of_mem _ h1
        · intro x hx
          rcases List.mem_cons.mp hx with rfl | h1
          · exact hle
          · exact hall x h1
        · rcases hmem' with h1 | h1
          · rw [h1]; exact List.mem_cons_self t ts
          · exact List.mem_cons_of_mem _ h1
        · intro x hx
          rcases List.mem_cons.mp hx with rfl | h1
          · exact hle'
          · exact hall' x h1

/-- Witness for C3: the aggregation theorem applied to the spec's concrete
interleaved forecast. -/
theorem temp_aggregation_correct_witness :
    ∃ r, buildReading exForecast "d1" = some r :=
  (temp_aggregation_correct.1 exForecast "d1" (by decide)).elim
    (fun r hr => ⟨r, hr.1⟩)

/-- C4: for every nonempty forecast sequence, the humidity, wind speed and
condition text of the reading written for a city are those of the first entry
of the unfiltered sequence, whatever the date filter selected. -/
theorem current_fields_from_first_unfiltered :
    ∀ (entries : List Entry) (todayStr : String) (h : entries ≠ []),
      ∃ r, buildReading entries todayStr = some r ∧
        r.humidity = (entries.head h).humidity ∧
        r.wind_speed = (entries.head h).wind_speed ∧
        r.condition_text = (entries.head h).description := by
  intro entries todayStr h
  match entries with
  | first :: rest =>
    rcases hT : todayTemps (first :: rest) todayStr with _ | ⟨t, ts⟩
    · exact ⟨⟨first.temp, first.temp, first.temp, first.humidity,
        first.wind_speed, first.description⟩,
        by simp only [buildReading, hT], rfl, rfl, rfl⟩
    · exact ⟨⟨t, listMin t ts, listMax t ts, first.humidity,
        first.wind_speed, first.description⟩,
        by simp only [buildReading, hT], rfl, rfl, rfl⟩

/-- Witness for C4: applied to the interleaved example, whose first entry has
humidity 71 even though the first today-dated entry has humidity 71 as well
only by coincidence of the data; the fields equal the unfiltered head's. -/
theorem current_fields_from_first_unfiltered_witness :
    ∃ r, buildReading exForecast "d1" = some r ∧ r.humidity = 71 ∧
      r.wind_speed = 5 ∧ r.condition_text = "clear sky" :=
  (current_fields_from_first_unfiltered exForecast "d1" (by decide)).elim
    (fun r hr => ⟨r, hr.1, hr.2.1.trans (by decide), hr.2.2.1.trans (by decide),
      hr.2.2.2.trans (by decide)⟩)

/-- C5: schema provisioning is idempotent: with a reachable store a second
`create_schema` call leaves the state exactly as the first call left it,
reports no error, and the provisioning never touches the rows of any
table. -/
theorem create_schema_idempotent :
    ∀ s : DBState,
      create_schema schemaOk ((create_schema schemaOk s).1) =
        ((create_schema schemaOk s).1, none) ∧
      ((create_schema schemaOk s).1).dimCity = s.dimCity ∧
      ((create_schema schemaOk s).1).dimDate = s.dimDate ∧
      ((create_schema schemaOk s).1).currentWeather = s.currentWeather ∧
      ((create_schema schemaOk s).1).historicalWeather = s.historicalWeather := by
  intro s
  exact ⟨rfl, rfl, rfl, rfl, rfl⟩

/-! ## C6: the snapshot upsert keeps exactly one row per city -/

theorem snapFilter_map (rows : List SnapRow) (cid : Nat) (r : Reading) (n : Nat) :
    (rows.map (fun row =>
        if row.city_id = cid then (⟨row.city_id, r, n⟩ : SnapRow) else row)).filter
          (fun row => row.city_id = cid)
      = (rows.filter (fun row => row.city_id = cid)).map (fun row =>
          if row.city_id = cid then (⟨row.city_id, r, n⟩ : SnapRow) else row) := by
  induction rows with
  | nil => rfl
  | cons a t ih =>
    by_cases h : a.city_id = cid
    · simp [List.filter_cons, h, ih]
    · simp [List.filter_cons, h, ih]

theorem snapUpsertRows_filter (rows : List SnapRow) (cid : Nat) (r : Reading)
    (n : Nat) (h : (rows.filter (fun row => row.city_id = cid)).length ≤ 1) :
    (snapUpsertRows rows cid r n).filter (fun row => row.city_id = cid)
      = [⟨cid, r, n⟩] := by
  unfold snapUpsertRows
  by_cases hany : rows.any (fun row => decide (row.city_id = cid)) = true
  · rw [if_pos hany, snapFilter_map]
    obtain ⟨x, hx, hxc⟩ := List.any_eq_true.mp hany
    have hxc' : x.city_id = cid := of_decide_eq_true hxc
    have hmem : x ∈ rows.filter (fun row => row.city_id = cid) :=
      List.mem_filter.mpr ⟨hx, hxc⟩
    have hne : rows.filter (fun row => row.city_id = cid) ≠ [] := by
      intro hnil
      rw [hnil] at hmem
      cases hmem
    have hlen : (rows.filter (fun row => row.city_id = cid)).length = 1 := by
      have hpos : 0 < (rows.filter (fun row => row.city_id = cid)).length :=
        List.length_pos.mpr hne
      omega
    obtain ⟨y, hy⟩ := List.length_eq_one.mp hlen
    have hyc : y.city_id = cid := by
      have : y ∈ rows.filter (fun row => row.city_id = cid) := by
        rw [hy]
        exact List.mem_cons_self y []
      exact of_decide_eq_true (List.mem_filter.mp this).2
    rw [hy]
    simp [hyc]
  · rw [if_neg hany, List.filter_append]
    have hnil : rows.filter (fun row => row.city_id = cid) = [] := by
      rw [List.filter_eq_nil_iff]
      intro a ha hdec
      exact hany (List.any_eq_true.mpr ⟨a, ha, hdec⟩)
    rw [hnil]
    simp

/-- C6: under the primary-key invariant (at most one snapshot row per city),
one upsert leaves exactly the one row with the written values and timestamp,
and a second upsert for the same city leaves exactly one row holding the
second run's values and refreshed timestamp. -/
theorem snapshot_exactly_one_row :
    ∀ (s : DBState) (cid : Nat) (r1 r2 : Reading) (n1 n2 : Nat),
      (snapRowsFor s cid).length ≤ 1 →
      snapRowsFor (upsertSnapshot s cid r1 n1) cid = [⟨cid, r1, n1⟩] ∧
      snapRowsFor (upsertSnapshot (upsertSnapshot s cid r1 n1) cid r2 n2) cid
        = [⟨cid, r2, n2⟩] := by
  intro s cid r1 r2 n1 n2 h
  have h1 : snapRowsFor (upsertSnapshot s cid r1 n1) cid = [⟨cid, r1, n1⟩] :=
    snapUpsertRows_filter s.currentWeather cid r1 n1 h
  refine ⟨h1, ?_⟩
  have h2 : (snapRowsFor (upsertSnapshot s cid r1 n1) cid).length ≤ 1 := by
    rw [h1]
    exact le_refl 1
  exact snapUpsertRows_filter _ cid r2 n2 h2

/-- Witness for C6: two consecutive upserts for city 1 starting from the
empty store leave exactly the single row with the second run's values. -/
theorem snapshot_exactly_one_row_witness :
    (snapRowsFor emptyDB 1).length ≤ 1 ∧
    snapRowsFor (upsertSnapshot (upsertSnapshot emptyDB 1 exReading1 10) 1
      exReading2 20) 1 = [⟨1, exReading2, 20⟩] :=
  ⟨by decide, (snapshot_exactly_one_row emptyDB 1 exReading1 exReading2 10 20
    (by decide)).2⟩

/-! ## C8: insert-if-absent-then-select city resolution -/

theorem find?_of_filter_singleton {α : Type} (p : α → Bool) (l : List α) (x : α)
    (h : l.filter p = [x]) : l.find? p = some x := by
  induction l with
  | nil => cases h
  | cons a t ih =>
    by_cases ha : p a = true
    · rw [List.filter_cons_of_pos ha] at h
      injection h with h1 h2
      rw [List.find?_cons_of_pos _ ha, h1]
    · rw [List.filter_cons_of_neg (by simpa using ha)] at h
      rw [List.find?_cons_of_neg _ (by simpa using ha)]
      exact ih h

theorem insertIgnore_resolves (s : DBState) (name : String) (lat lon : Int)
    (h : (cityRowsFor s name).length ≤ 1) :
    ∃ x : CityRow, x.name = name ∧
      cityRowsFor (insertIgnoreCity s name lat lon) name = [x] ∧
      selectCityId (insertIgnoreCity s name lat lon) name = some x.city_id ∧
      ∀ la lo : Int,
        insertIgnoreCity (insertIgnoreCity s name lat lon) name la lo
          = insertIgnoreCity s name lat lon := by
  by_cases hany : s.dimCity.any (fun r => decide (r.name = name)) = true
  · obtain ⟨y, hy, hyc⟩ := List.any_eq_true.mp hany
    have hmem : y ∈ cityRowsFor s name := List.mem_filter.mpr ⟨hy, hyc⟩
    have hne : cityRowsFor s name ≠ [] := by
      intro hnil
      rw [hnil] at hmem
      cases hmem
    have hlen : (cityRowsFor s name).length = 1 := by
      have hpos : 0 < (cityRowsFor s name).length := List.length_pos.mpr hne
      omega
    obtain ⟨x, hx⟩ := List.length_eq_one.mp hlen
    have hnoop : insertIgnoreCity s name lat lon = s := by
      unfold insertIgnoreCity
      rw [if_pos hany]
    have hxn : x.name = name := by
      have : x ∈ cityRowsFor s name := by
        rw [hx]
        exact List.mem_cons_self x []
      exact of_decide_eq_true (List.mem_filter.mp this).2
    refine ⟨x, hxn, ?_, ?_, ?_⟩
    · rw [hnoop]
      exact hx
    · rw [hnoop]
      unfold selectCityId
      rw [find?_of_filter_singleton _ _ _ hx]
      rfl
    · intro la lo
      rw [hnoop]
      unfold insertIgnoreCity
      rw [if_pos hany]
  · have hnil : cityRowsFor s name = [] := by
      unfold cityRowsFor
      rw [List.filter_eq_nil_iff]
      intro a ha hdec
      exact hany (List.any_eq_true.mpr ⟨a, ha, hdec⟩)
    have hins : insertIgnoreCity s name lat lon
        = { s with dimCity := s.dimCity ++ [⟨s.nextCityId, name, lat, lon⟩],
                   nextCityId := s.nextCityId + 1 } := by
      unfold insertIgnoreCity
      rw [if_neg hany]
    refine ⟨⟨s.nextCityId, name, lat, lon⟩, rfl, ?_, ?_, ?_⟩
    · rw [hins]
      unfold cityRowsFor at hnil ⊢
      simp only [List.filter_append, hnil, List.nil_append]
      simp
    · rw [hins]
      unfold selectCityId
      rw [find?_of_filter_singleton _ _ ⟨s.nextCityId, name, lat, lon⟩ ?_]
      · rfl
      · unfold cityRowsFor at hnil
        simp only [List.filter_append, hnil, List.nil_append]
        simp
    · intro la lo
      rw [hins]
      unfold insertIgnoreCity
      rw [if_pos]
      simp

/-- C8: resolving the same city name twice (from any store state in which the
UNIQUE constraint holds) returns the same city id both times, never fails the
second time, and leaves exactly one dimension row for that name, whatever
coordinates the second geocoding produced. -/
theorem resolve_city_idempotent :
    ∀ (con : Conn) (name : String) (lat1 lon1 lat2 lon2 : Int),
      (cityRowsFor con.working name).length ≤ 1 →
      ∃ cid,
        (get_or_create_city con name lat1 lon1 none).2 = .ok cid ∧
        (get_or_create_city ((get_or_create_city con name lat1 lon1 none).1)
            name lat2 lon2 none).2 = .ok cid ∧
        (cityRowsFor ((get_or_create_city ((get_or_create_city con name lat1
            lon1 none).1) name lat2 lon2 none).1).working name).length = 1 := by
  intro con name lat1 lon1 lat2 lon2 h
  obtain ⟨x, hxn, hfil, hsel, hidem⟩ := insertIgnore_resolves con.working name lat1 lon1 h
  have e1 : get_or_create_city con name lat1 lon1 none
      = (Conn.commit { con with
            working := insertIgnoreCity con.working name lat1 lon1 },
         .ok x.city_id) := by
    unfold get_or_create_city
    simp only [Conn.commit, hsel]
  have hw1 : ((get_or_create_city con name lat1 lon1 none).1).working
      = insertIgnoreCity con.working name lat1 lon1 := by
    rw [e1]
    rfl
  have hsel2 : selectCityId (insertIgnoreCity (insertIgnoreCity con.working
      name lat1 lon1) name lat2 lon2) name = some x.city_id := by
    rw [hidem lat2 lon2]
    exact hsel
  have e2 : ∀ c1 : Conn, c1.working = insertIgnoreCity con.working name lat1 lon1 →
      get_or_create_city c1 name lat2 lon2 none
        = (Conn.commit { c1 with
              working := insertIgnoreCity c1.working name lat2 lon2 },
           .ok x.city_id) := by
    intro c1 hc1
    unfold get_or_create_city
    simp only [Conn.commit, hc1, hsel2]
  refine ⟨x.city_id, by rw [e1], ?_, ?_⟩
  · rw [e2 _ hw1]
  · rw [e2 _ hw1]
    show (cityRowsFor (insertIgnoreCity (((get_or_create_city con name lat1
      lon1 none).1)).working name lat2 lon2) name).length = 1
    rw [hw1, hidem lat2 lon2, hfil]
    rfl

/-- Witness for C8: resolving "Casablanca" twice on the empty store yields the
same id twice and a single dimension row. -/
theorem resolve_city_idempotent_witness :
    ∃ cid,
      (get_or_create_city ⟨emptyDB, emptyDB⟩ "Casablanca" 33 (-7) none).2
        = .ok cid ∧
      (get_or_create_city ((get_or_create_city ⟨emptyDB, emptyDB⟩ "Casablanca"
          33 (-7) none).1) "Casablanca" 34 (-6) none).2 = .ok cid ∧
      (cityRowsFor ((get_or_create_city ((get_or_create_city ⟨emptyDB, emptyDB⟩
          "Casablanca" 33 (-7) none).1) "Casablanca" 34 (-6) none).1).working
        "Casablanca").length = 1 :=
  resolve_city_idempotent ⟨emptyDB, emptyDB⟩ "Casablanca" 33 (-7) 34 (-6)
    (by decide)

/-! ## Field-effect lemmas for the store statements -/

@[simp] theorem insertIgnoreCity_historical (s : DBState) (n : String) (la lo : Int) :
    (insertIgnoreCity s n la lo).historicalWeather = s.historicalWeather := by
  unfold insertIgnoreCity
  split <;> rfl

@[simp] theorem insertIgnoreCity_current (s : DBState) (n : String) (la lo : Int) :
    (insertIgnoreCity s n la lo).currentWeather = s.currentWeather := by
  unfold insertIgnoreCity
  split <;> rfl

@[simp] theorem upsertSnapshot_historical (s : DBState) (cid : Nat) (r : Reading)
    (n : Nat) : (upsertSnapshot s cid r n).historicalWeather = s.historicalWeather :=
  rfl

@[simp] theorem upsertSnapshot_current (s : DBState) (cid : Nat) (r : Reading)
    (n : Nat) :
    (upsertSnapshot s cid r n).currentWeather = snapUpsertRows s.currentWeather cid r n :=
  rfl

@[simp] theorem insertHistory_historical (s : DBState) (cid did : Nat) (t : String)
    (r : Reading) :
    (insertHistory s cid did t r).historicalWeather
      = s.historicalWeather ++ [⟨s.nextHistId, cid, did, t, r⟩] :=
  rfl

@[simp] theorem insertHistory_current (s : DBState) (cid did : Nat) (t : String)
    (r : Reading) : (insertHistory s cid did t r).currentWeather = s.currentWeather :=
  rfl

@[simp] theorem Conn_commit_working (con : Conn) : con.commit.working = con.working :=
  rfl

@[simp] theorem Conn_commit_committed (con : Conn) : con.commit.committed = con.working :=
  rfl

theorem gcity_fst_working_hist (con : Conn) (c : String) (la lo : Int)
    (d : Option String) :
    ((get_or_create_city con c la lo d).1).working.historicalWeather
      = con.working.historicalWeather := by
  cases d with
  | none => simp [get_or_create_city]
  | some e => rfl

theorem gcity_fst_working_curr (con : Conn) (c : String) (la lo : Int)
    (d : Option String) :
    ((get_or_create_city con c la lo d).1).working.currentWeather
      = con.working.currentWeather := by
  cases d with
  | none => simp [get_or_create_city]
  | some e => rfl

theorem gcity_fst_committed_none (con : Conn) (c : String) (la lo : Int) :
    ((get_or_create_city con c la lo none).1).committed
      = ((get_or_create_city con c la lo none).1).working :=
  rfl

theorem gcity_fst_committed_hist (con : Conn) (c : String) (la lo : Int)
    (d : Option String) :
    ((get_or_create_city con c la lo d).1).committed.historicalWeather
        = con.committed.historicalWeather ∨
    ((get_or_create_city con c la lo d).1).committed.historicalWeather
        = con.working.historicalWeather := by
  cases d with
  | none =>
    right
    simp [get_or_create_city]
  | some e => exact Or.inl rfl

theorem gdate_shape (con : Conn) (d : DateObj) (e : Option String) :
    (get_or_create_date con d e).1 = con ∨
    ∃ w : DBState, (get_or_create_date con d e).1 = ⟨w, w⟩ ∧
      w.historicalWeather = con.working.historicalWeather ∧
      w.currentWeather = con.working.currentWeather ∧
      w.dimCity = con.working.dimCity := by
  cases e with
  | some e => exact Or.inl rfl
  | none =>
    unfold get_or_create_date
    rcases h : selectDateId con.working d.fullDate with _ | did
    · refine Or.inr ⟨_, rfl, rfl, rfl, rfl⟩
    · exact Or.inl rfl

/-! ## The report structure (C2) -/

theorem processCity_entry_city (env : CityEnv) (city : String) (con : Conn) :
    ((processCity env city con).2).city = city := by
  unfold processCity
  dsimp only
  repeat' split
  all_goals rfl

theorem collect_loop_map_city (envf : Nat → CityEnv) (cities : List String) :
    ∀ (i : Nat) (con : Conn),
      ((collect_loop envf i cities con).2).map ReportEntry.city = cities := by
  induction cities with
  | nil => intro i con; rfl
  | cons c cs ih =>
    intro i con
    show (((processCity (envf i) c con).2) ::
        (collect_loop envf (i + 1) cs (processCity (envf i) c con).1).2).map
          ReportEntry.city = c :: cs
    rw [List.map_cons, processCity_entry_city, ih]

/-- C2: every per-city exception is caught at the city boundary: whatever the
per-city environments do (geocoding failure, fetch failure, store failure at
any of the write sites, empty forecast), the loop never aborts, processes
every remaining city, and the final report carries exactly one entry per
input city, in the original input order (so it mixes success and failure
entries as they occurred). -/
theorem report_one_entry_per_city_in_order :
    ∀ (envf : Nat → CityEnv) (i : Nat) (cities : List String) (con : Conn),
      ((collect_loop envf i cities con).2).map ReportEntry.city = cities ∧
      ((collect_loop envf i cities con).2).length = cities.length := by
  intro envf i cities con
  refine ⟨collect_loop_map_city envf cities i con, ?_⟩
  have h := congrArg List.length (collect_loop_map_city envf cities i con)
  rw [List.length_map] at h
  exact h

/-! ## History is append-only (C7) -/

@[simp] theorem isSuccess_failure (c e : String) :
    (ReportEntry.failure c e).isSuccess = false :=
  rfl

@[simp] theorem isSuccess_success (c : String) (t : Int) :
    (ReportEntry.success c t).isSuccess = true :=
  rfl

theorem gdate_fst_working_hist (con : Conn) (d : DateObj) (e : Option String) :
    ((get_or_create_date con d e).1).working.historicalWeather
      = con.working.historicalWeather := by
  rcases gdate_shape con d e with h | ⟨w, hw, hh, _, _⟩
  · rw [h]
  · rw [hw]
    exact hh

theorem gdate_fst_working_curr (con : Conn) (d : DateObj) (e : Option String) :
    ((get_or_create_date con d e).1).working.currentWeather
      = con.working.currentWeather := by
  rcases gdate_shape con d e with h | ⟨w, hw, _, hc, _⟩
  · rw [h]
  · rw [hw]
    exact hc

theorem gdate_fst_committed_hist (con : Conn) (d : DateObj) (e : Option String) :
    ((get_or_create_date con d e).1).committed.historicalWeather
        = con.committed.historicalWeather ∨
    ((get_or_create_date con d e).1).committed.historicalWeather
        = con.working.historicalWeather := by
  rcases gdate_shape con d e with h | ⟨w, hw, hh, _, _⟩
  · left
    rw [h]
  · right
    rw [hw]
    exact hh

theorem processCity_hist_shape (env : CityEnv) (city : String) (con : Conn) :
    ∃ t, (processCity env city con).1.working.historicalWeather
        = con.working.historicalWeather ++ t ∧
      (((processCity env city con).2).isSuccess = true → t.length = 1) := by
  unfold processCity
  dsimp only
  split
  · exact ⟨[], by simp, by simp⟩
  · split
    · exact ⟨[], by simp [gcity_fst_working_hist], by simp⟩
    · split
      · exact ⟨[], by simp [gdate_fst_working_hist, gcity_fst_working_hist], by simp⟩
      · split
        · exact ⟨[], by simp [gdate_fst_working_hist, gcity_fst_working_hist], by simp⟩
        · split
          · exact ⟨[], by simp [gdate_fst_working_hist, gcity_fst_working_hist], by simp⟩
          · split
            · exact ⟨[], by simp [gdate_fst_working_hist, gcity_fst_working_hist],
                by simp⟩
            · split
              · exact ⟨[], by simp [gdate_fst_working_hist, gcity_fst_working_hist],
                  by simp⟩
              · split
                · simp only [insertHistory_historical, upsertSnapshot_historical,
                    gdate_fst_working_hist, gcity_fst_working_hist, isSuccess_failure]
                  exact ⟨_, rfl, fun h => rfl⟩
                · simp only [Conn_commit_working, insertHistory_historical,
                    upsertSnapshot_historical, gdate_fst_working_hist,
                    gcity_fst_working_hist, isSuccess_success]
                  exact ⟨_, rfl, fun h => rfl⟩

theorem collect_loop_hist_extends (envf : Nat → CityEnv) (cities : List String) :
    ∀ (i : Nat) (con : Conn),
      ∃ t, (collect_loop envf i cities con).1.working.historicalWeather
        = con.working.historicalWeather ++ t := by
  induction cities with
  | nil => exact fun i con => ⟨[], (List.append_nil _).symm⟩
  | cons c cs ih =>
    intro i con
    obtain ⟨t1, h1, _⟩ := processCity_hist_shape (envf i) c con
    obtain ⟨t2, h2⟩ := ih (i + 1) (processCity (envf i) c con).1
    refine ⟨t1 ++ t2, ?_⟩
    show (collect_loop envf (i + 1) cs (processCity (envf i) c con).1).1.working.historicalWeather
      = con.working.historicalWeather ++ (t1 ++ t2)
    rw [h2, h1, List.append_assoc]

/-- C7: the historical table is append-only.  Every per-city pipeline run
leaves the previous historical rows untouched as a prefix, appends exactly
one new row when the city succeeded, and any whole batch over any city list
likewise only appends to the historical table. -/
theorem history_append_only :
    ∀ (env : CityEnv) (city : String) (con : Conn),
      (∃ t, (processCity env city con).1.working.historicalWeather
          = con.working.historicalWeather ++ t ∧
        (((processCity env city con).2).isSuccess = true → t.length = 1)) ∧
      ∀ (envf : Nat → CityEnv) (i : Nat) (cities : List String),
        ∃ t, (collect_loop envf i cities con).1.working.historicalWeather
          = con.working.historicalWeather ++ t := by
  intro env city con
  exact ⟨processCity_hist_shape env city con,
    fun envf i cities => collect_loop_hist_extends envf cities i con⟩

/-- Witness for C7: the shape theorem applied to a concrete successful run
from the empty store. -/
theorem history_append_only_witness :
    (∃ t, (processCity exEnvOk "Casablanca" ⟨emptyDB, emptyDB⟩).1.working.historicalWeather
        = (⟨emptyDB, emptyDB⟩ : Conn).working.historicalWeather ++ t ∧
      (((processCity exEnvOk "Casablanca" ⟨emptyDB, emptyDB⟩).2).isSuccess = true →
        t.length = 1)) ∧
    ∀ (envf : Nat → CityEnv) (i : Nat) (cities : List String),
      ∃ t, (collect_loop envf i cities ⟨emptyDB, emptyDB⟩).1.working.historicalWeather
        = (⟨emptyDB, emptyDB⟩ : Conn).working.historicalWeather ++ t :=
  history_append_only exEnvOk "Casablanca" ⟨emptyDB, emptyDB⟩

/-! ## Independent commits and durability (C9) -/

theorem processCity_success_commit (env : CityEnv) (city : String) (con : Conn) :
    ∀ c tn, (processCity env city con).2 = .success c tn →
      (processCity env city con).1.committed = (processCity env city con).1.working := by
  unfold processCity
  dsimp only
  repeat' split
  all_goals intro c tn h
  all_goals cases h <;> rfl

theorem gcity_conn_inv (con : Conn) (c : String) (la lo : Int) (d : Option String)
    (hinv : ∃ t, con.working.historicalWeather = con.committed.historicalWeather ++ t) :
    (∃ t, ((get_or_create_city con c la lo d).1).committed.historicalWeather
        = con.committed.historicalWeather ++ t) ∧
    (∃ t, ((get_or_create_city con c la lo d).1).working.historicalWeather
        = ((get_or_create_city con c la lo d).1).committed.historicalWeather ++ t) := by
  cases d with
  | some e => exact ⟨⟨[], (List.append_nil _).symm⟩, hinv⟩
  | none =>
    obtain ⟨t0, h0⟩ := hinv
    constructor
    · refine ⟨t0, ?_⟩
      show (insertIgnoreCity con.working c la lo).historicalWeather = _
      rw [insertIgnoreCity_historical]
      exact h0
    · exact ⟨[], (List.append_nil _).symm⟩

theorem gdate_conn_inv (con : Conn) (d : DateObj) (e : Option String)
    (hinv : ∃ t, con.working.historicalWeather = con.committed.historicalWeather ++ t) :
    (∃ t, ((get_or_create_date con d e).1).committed.historicalWeather
        = con.committed.historicalWeather ++ t) ∧
    (∃ t, ((get_or_create_date con d e).1).working.historicalWeather
        = ((get_or_create_date con d e).1).committed.historicalWeather ++ t) := by
  rcases gdate_shape con d e with h | ⟨w, hw, hh, _, _⟩
  · rw [h]
    exact ⟨⟨[], (List.append_nil _).symm⟩, hinv⟩
  · rw [hw]
    obtain ⟨t0, h0⟩ := hinv
    refine ⟨⟨t0, ?_⟩, ⟨[], (List.append_nil _).symm⟩⟩
    show w.historicalWeather = _
    rw [hh, h0]

theorem exists_append_extend {l m : List HistRow} (td : List HistRow) (x : HistRow)
    (h : l = m ++ td) : ∃ t, l ++ [x] = m ++ t :=
  ⟨td ++ [x], by rw [h, List.append_assoc]⟩

theorem processCity_committed_hist (env : CityEnv) (city : String) (con : Conn)
    (hinv : ∃ t, con.working.historicalWeather = con.committed.historicalWeather ++ t) :
    (∃ t, (processCity env city con).1.committed.historicalWeather
        = con.committed.historicalWeather ++ t) ∧
    (∃ t, (processCity env city con).1.working.historicalWeather
        = (processCity env city con).1.committed.historicalWeather ++ t) := by
  unfold processCity
  dsimp only
  split
  · exact ⟨⟨[], (List.append_nil _).symm⟩, hinv⟩
  · rename_i lat lon hgeo
    obtain ⟨⟨ta, ha⟩, hinv1⟩ := gcity_conn_inv con city lat lon env.cityDbErr hinv
    split
    · exact ⟨⟨ta, ha⟩, hinv1⟩
    · rename_i cid hcid
      obtain ⟨⟨tc, hc⟩, hinv2⟩ :=
        gdate_conn_inv (get_or_create_city con city lat lon env.cityDbErr).1
          env.now env.dateDbErr hinv1
      have hcc : ∃ t,
          ((get_or_create_date (get_or_create_city con city lat lon
            env.cityDbErr).1 env.now env.dateDbErr).1).committed.historicalWeather
          = con.committed.historicalWeather ++ t :=
        ⟨ta ++ tc, by rw [hc, ha, List.append_assoc]⟩
      split
      · exact ⟨hcc, hinv2⟩
      · rename_i did hdid
        split
        · exact ⟨hcc, hinv2⟩
        · rename_i entries hfetch
          split
          · exact ⟨hcc, hinv2⟩
          · rename_i reading hread
            split
            · exact ⟨hcc, hinv2⟩
            · rename_i hsnap
              obtain ⟨td, hd⟩ := hinv2
              split
              · exact ⟨hcc, ⟨td, hd⟩⟩
              · rename_i hhist
                split
                · refine ⟨hcc, ?_⟩
                  simp only [insertHistory_historical, upsertSnapshot_historical]
                  exact exists_append_extend td _ hd
                · obtain ⟨te, he⟩ := hcc
                  refine ⟨?_, ⟨[], (List.append_nil _).symm⟩⟩
                  simp only [Conn_commit_committed, insertHistory_historical,
                    upsertSnapshot_historical]
                  exact exists_append_extend (te ++ td) _
                    (by rw [hd, he, List.append_assoc])

theorem collect_loop_committed_hist (envf : Nat → CityEnv) (cities : List String) :
    ∀ (i : Nat) (con : Conn),
      (∃ t, con.working.historicalWeather = con.committed.historicalWeather ++ t) →
      ∃ t, (collect_loop envf i cities con).1.committed.historicalWeather
        = con.committed.historicalWeather ++ t := by
  induction cities with
  | nil => exact fun i con _ => ⟨[], (List.append_nil _).symm⟩
  | cons c cs ih =>
    intro i con hinv
    obtain ⟨⟨t1, h1⟩, hinv'⟩ := processCity_committed_hist (envf i) c con hinv
    obtain ⟨t2, h2⟩ := ih (i + 1) (processCity (envf i) c con).1 hinv'
    refine ⟨t1 ++ t2, ?_⟩
    show (collect_loop envf (i + 1) cs
      (processCity (envf i) c con).1).1.committed.historicalWeather = _
    rw [h2, h1, List.append_assoc]

/-- C9: writes are committed independently, not in one batch transaction.
Under the connection invariant (the working state extends the committed one
on the history table): a successful city pipeline ends with everything on the
connection committed; the committed history only ever grows across a city and
across a whole batch (so city i's appended row survives any later failure or
interruption); the invariant is maintained; and the city-dimension resolution
performs its own commit in the middle of the pipeline, publishing the working
state at that point. -/
theorem independent_commit_durability :
    ∀ (env : CityEnv) (city : String) (con : Conn),
      (∃ t, con.working.historicalWeather = con.committed.historicalWeather ++ t) →
      (∀ c tn, (processCity env city con).2 = .success c tn →
        (processCity env city con).1.committed = (processCity env city con).1.working) ∧
      (∃ t, (processCity env city con).1.committed.historicalWeather
          = con.committed.historicalWeather ++ t) ∧
      (∃ t, (processCity env city con).1.working.historicalWeather
          = (processCity env city con).1.committed.historicalWeather ++ t) ∧
      (∀ (c2 : String) (la lo : Int),
        ((get_or_create_city con c2 la lo none).1).committed
          = ((get_or_create_city con c2 la lo none).1).working) ∧
      (∀ (envf : Nat → CityEnv) (i : Nat) (cities : List String),
        ∃ t, (collect_loop envf i cities con).1.committed.historicalWeather
          = con.committed.historicalWeather ++ t) := by
  intro env city con hinv
  obtain ⟨h1, h2⟩ := processCity_committed_hist env city con hinv
  exact ⟨processCity_success_commit env city con, h1, h2,
    fun c2 la lo => gcity_fst_committed_none con c2 la lo,
    fun envf i cities => collect_loop_committed_hist envf cities i con hinv⟩

/-- Witness for C9: the durability theorem applied to a concrete successful
environment on a fresh connection (whose invariant holds trivially). -/
theorem independent_commit_durability_witness :
    (∃ t, (⟨emptyDB, emptyDB⟩ : Conn).working.historicalWeather
      = (⟨emptyDB, emptyDB⟩ : Conn).committed.historicalWeather ++ t) ∧
    (∃ t, (processCity exEnvOk "Casablanca" ⟨emptyDB, emptyDB⟩).1.committed.historicalWeather
      = (⟨emptyDB, emptyDB⟩ : Conn).committed.historicalWeather ++ t) :=
  ⟨⟨[], rfl⟩,
   (independent_commit_durability exEnvOk "Casablanca" ⟨emptyDB, emptyDB⟩
     ⟨[], rfl⟩).2.1⟩

/-! ## No rollback on per-city failure (C10) -/

theorem selectCityId_insertIgnore (s : DBState) (n : String) (la lo : Int) :
    ∃ cid, selectCityId (insertIgnoreCity s n la lo) n = some cid := by
  unfold insertIgnoreCity
  by_cases hany : s.dimCity.any (fun r => decide (r.name = n)) = true
  · rw [if_pos hany]
    obtain ⟨x, hx, hxc⟩ := List.any_eq_true.mp hany
    have : (s.dimCity.find? (fun r => decide (r.name = n))).isSome := by
      rw [List.find?_isSome]
      exact ⟨x, hx, hxc⟩
    obtain ⟨y, hy⟩ := Option.isSome_iff_exists.mp this
    exact ⟨y.city_id, by unfold selectCityId; rw [hy]; rfl⟩
  · rw [if_neg hany]
    refine ⟨s.nextCityId, ?_⟩
    unfold selectCityId
    have hnone : s.dimCity.find? (fun r => decide (r.name = n)) = none := by
      rw [List.find?_eq_none]
      intro x hx
      simp only [decide_eq_true_eq]
      intro hxn
      exact hany (List.any_eq_true.mpr ⟨x, hx, by simp [hxn]⟩)
    rw [List.find?_append, hnone]
    simp [List.find?]

theorem gdate_ok (con : Conn) (d : DateObj) :
    ∃ did, (get_or_create_date con d none).2 = .ok did := by
  unfold get_or_create_date
  rcases h : selectDateId con.working d.fullDate with _ | did
  · exact ⟨con.working.nextDateId, rfl⟩
  · exact ⟨did, rfl⟩

theorem selectCityId_congr (s s' : DBState) (n : String)
    (h : s.dimCity = s'.dimCity) : selectCityId s n = selectCityId s' n := by
  unfold selectCityId
  rw [h]

theorem gdate_fst_working_dimCity (con : Conn) (d : DateObj) (e : Option String) :
    ((get_or_create_date con d e).1).working.dimCity = con.working.dimCity := by
  rcases gdate_shape con d e with h | ⟨w, hw, _, _, hdc⟩
  · rw [h]
  · rw [hw]
    exact hdc

theorem gdate_fst_committed_curr (con : Conn) (d : DateObj) (e : Option String)
    (h : con.committed = con.working) :
    ((get_or_create_date con d e).1).committed.currentWeather
      = con.working.currentWeather := by
  rcases gdate_shape con d e with h1 | ⟨w, hw, _, hc, _⟩
  · rw [h1, h]
  · rw [hw]
    exact hc

/-- C10: when a per-city exception hits the historical insert after a
successful snapshot upsert, no rollback is issued: the city is reported
failed, the connection's working state already holds the upserted snapshot
(applied to the still-unchanged committed current rows), the committed
current rows are untouched, no history row was added, and any subsequent
city's dimension resolution (the next commit on the shared connection) makes
the pending snapshot durable. -/
theorem pending_snapshot_no_rollback :
    ∀ (env : CityEnv) (city : String) (con : Conn) (lat lon : Int)
      (entries : List Entry) (r : Reading) (msg : String),
      env.geocode = .ok (lat, lon) →
      env.cityDbErr = none →
      env.dateDbErr = none →
      env.fetch = .ok entries →
      buildReading entries env.now.fullDate = some r →
      env.snapErr = none →
      env.histErr = some msg →
      con.committed = con.working →
      ∃ cid,
        selectCityId ((processCity env city con).1).working city = some cid ∧
        (processCity env city con).2 = .failure city msg ∧
        ((processCity env city con).1).working.currentWeather
          = snapUpsertRows (((processCity env city con).1).committed.currentWeather)
              cid r env.clock ∧
        ((processCity env city con).1).committed.currentWeather
          = con.working.currentWeather ∧
        ((processCity env city con).1).working.historicalWeather
          = con.working.historicalWeather ∧
        ∀ (c2 : String) (la lo : Int),
          ((get_or_create_city ((processCity env city con).1) c2 la lo
            none).1).committed.currentWeather
            = ((processCity env city con).1).working.currentWeather := by
  intro env city con lat lon entries r msg hg hc hd hf hr hs hh hcw
  obtain ⟨cid, hsel⟩ := selectCityId_insertIgnore con.working city lat lon
  have e1 : get_or_create_city con city lat lon none
      = (Conn.commit { con with
            working := insertIgnoreCity con.working city lat lon },
         .ok cid) := by
    unfold get_or_create_city
    simp only [Conn.commit, hsel]
  obtain ⟨did, hdid⟩ :=
    gdate_ok (get_or_create_city con city lat lon none).1 env.now
  have hred : processCity env city con
      = ({ (get_or_create_date (get_or_create_city con city lat lon none).1
              env.now none).1 with
           working := upsertSnapshot
             ((get_or_create_date (get_or_create_city con city lat lon
               none).1 env.now none).1).working cid r env.clock },
         .failure city msg) := by
    unfold processCity
    dsimp only
    have e12 : (get_or_create_city con city lat lon none).2 = .ok cid := by
      rw [e1]
    simp only [hg, hc, hd, hf]
    simp only [e12, hdid, hr, hs, hh]
  have hc1 : ((get_or_create_city con city lat lon none).1).committed
      = ((get_or_create_city con city lat lon none).1).working :=
    gcity_fst_committed_none con city lat lon
  have hcur2 : ((get_or_create_date (get_or_create_city con city lat lon
      none).1 env.now none).1).committed.currentWeather
      = con.working.currentWeather := by
    rw [gdate_fst_committed_curr _ _ _ hc1]
    rw [e1]
    simp [Conn.commit]
  have hcur2w : ((get_or_create_date (get_or_create_city con city lat lon
      none).1 env.now none).1).working.currentWeather
      = con.working.currentWeather := by
    rw [gdate_fst_working_curr]
    rw [e1]
    simp [Conn.commit]
  have hdim2 : ((get_or_create_date (get_or_create_city con city lat lon
      none).1 env.now none).1).working.dimCity
      = (insertIgnoreCity con.working city lat lon).dimCity := by
    rw [gdate_fst_working_dimCity]
    rw [e1]
    rfl
  have hhist2 : ((get_or_create_date (get_or_create_city con city lat lon
      none).1 env.now none).1).working.historicalWeather
      = con.working.historicalWeather := by
    rw [gdate_fst_working_hist]
    rw [e1]
    simp [Conn.commit]
  refine ⟨cid, ?_, ?_, ?_, ?_, ?_, ?_⟩
  · rw [hred]
    have hdim3 : (upsertSnapshot ((get_or_create_date (get_or_create_city con
        city lat lon none).1 env.now none).1).working cid r env.clock).dimCity
        = (insertIgnoreCity con.working city lat lon).dimCity := hdim2
    rw [selectCityId_congr _ _ city hdim3]
    exact hsel
  · rw [hred]
  · rw [hred]
    show snapUpsertRows _ cid r env.clock = snapUpsertRows _ cid r env.clock
    rw [hcur2w, hcur2]
  · rw [hred]
    exact hcur2
  · rw [hred]
    show ((get_or_create_date (get_or_create_city con city lat lon none).1
      env.now none).1).working.historicalWeather = _
    exact hhist2
  · intro c2 la lo
    rw [hred]
    rw [gcity_fst_committed_none, gcity_fst_working_curr]

/-- Witness for C10: the concrete environment that fails at the historical
insert, run for Casablanca on a fresh connection over the empty store. -/
theorem pending_snapshot_no_rollback_witness :
    ∃ cid,
      selectCityId ((processCity exEnvHistFail "Casablanca"
        ⟨emptyDB, emptyDB⟩).1).working "Casablanca" = some cid ∧
      (processCity exEnvHistFail "Casablanca" ⟨emptyDB, emptyDB⟩).2
        = .failure "Casablanca" "Lost connection" ∧
      ((processCity exEnvHistFail "Casablanca" ⟨emptyDB, emptyDB⟩).1).working.currentWeather
        = snapUpsertRows (((processCity exEnvHistFail "Casablanca"
            ⟨emptyDB, emptyDB⟩).1).committed.currentWeather)
            cid exReading1 exEnvHistFail.clock ∧
      ((processCity exEnvHistFail "Casablanca" ⟨emptyDB, emptyDB⟩).1).committed.currentWeather
        = (⟨emptyDB, emptyDB⟩ : Conn).working.currentWeather ∧
      ((processCity exEnvHistFail "Casablanca" ⟨emptyDB, emptyDB⟩).1).working.historicalWeather
        = (⟨emptyDB, emptyDB⟩ : Conn).working.historicalWeather ∧
      ∀ (c2 : String) (la lo : Int),
        ((get_or_create_city ((processCity exEnvHistFail "Casablanca"
          ⟨emptyDB, emptyDB⟩).1) c2 la lo none).1).committed.currentWeather
          = ((processCity exEnvHistFail "Casablanca"
              ⟨emptyDB, emptyDB⟩).1).working.currentWeather :=
  pending_snapshot_no_rollback exEnvHistFail "Casablanca" ⟨emptyDB, emptyDB⟩
    33 (-7) exForecast exReading1 "Lost connection"
    rfl rfl rfl rfl (by decide) rfl rfl rfl

/-! ## Schema failure is not fatal (C1) -/

/-- Counterexample to C1: with a reachable store whose CREATE TABLE statement
is denied, `create_schema` catches and merely prints the store error (line
78-79), and the `__main__` block still calls `collect_weather`, which
processes the city list: the report contains an entry for the city, so city
processing did happen in a run where create_schema raised a store error. -/
theorem schema_error_fatal_counterexample :
    (create_schema senvBad emptyDB).2 = some "CREATE command denied" ∧
    (mainRun senvBad none (fun _ => exEnvGeoFail) ["Casablanca"] emptyDB).2
      = some [.failure "Casablanca" "No coordinates for X"] := by
  constructor
  · rfl
  · rfl

/-- C1 (amended): a store error in `create_schema` is caught inside
`create_schema` and is not fatal: `collect_weather` is invoked regardless,
and it performs no city processing only when its own connection attempt
fails; whenever its own connection succeeds it processes every city of the
list (one report entry per city), schema error or not. -/
theorem schema_error_nonfatal :
    ∀ (senv : SchemaEnv) (envf : Nat → CityEnv) (cities : List String)
      (s0 : DBState),
      ((create_schema senv s0).2).isSome = true →
      (∀ e, (mainRun senv (some e) envf cities s0).2 = none) ∧
      ∃ r, (mainRun senv none envf cities s0).2 = some r ∧
        r.length = cities.length := by
  intro senv envf cities s0 hs
  constructor
  · intro e
    rfl
  · refine ⟨(collect_loop envf 0 cities
      ⟨(create_schema senv s0).1, (create_schema senv s0).1⟩).2, rfl, ?_⟩
    have h := congrArg List.length (collect_loop_map_city envf cities 0
      ⟨(create_schema senv s0).1, (create_schema senv s0).1⟩)
    rw [List.length_map] at h
    exact h

/-- Witness for the amended C1: the schema environment whose first CREATE is
denied, followed by a full one-city collection. -/
theorem schema_error_nonfatal_witness :
    ((create_schema senvBad emptyDB).2).isSome = true ∧
    ((∀ e, (mainRun senvBad (some e) (fun _ => exEnvOk) ["Casablanca"]
        emptyDB).2 = none) ∧
      ∃ r, (mainRun senvBad none (fun _ => exEnvOk) ["Casablanca"] emptyDB).2
          = some r ∧
        r.length = (["Casablanca"] : List String).length) :=
  ⟨rfl, schema_error_nonfatal senvBad (fun _ => exEnvOk) ["Casablanca"]
    emptyDB rfl⟩

end Weather
